import Mathlib

/-!
# ikra-ruby CUDA host templates

A shallow embedding of the two host-side templates of the repository:

* `lib/resources/cuda/host_section_entry_point.cpp`, the session harness
  (namespace `HostSectionEntryPoint`);
* `resources/cuda/kernel_launcher.cpp`, the kernel invocation unit
  (namespace `KernelLauncher`).

Both are C++ text with `/*{...}*/` insertion points.  A device call is a step
whose status comes from the device, so the statuses are inputs of the model and
the calls a function issues are collected, in program order, in a trace.
Durations are wall-clock readings and are not modelled: a timing report is
recorded by the phase it is reported for.
-/

namespace Ikra

/-- A CUDA status code, `cudaError_t`. -/
abbrev cudaError_t := Int

/-- The status `cudaSuccess`. -/
def cudaSuccess : cudaError_t := 0

/-- A device-memory handle (`void*` into device memory). -/
abbrev DevPtr := Nat

namespace HostSectionEntryPoint

/-- The four timer names the harness passes to `timeReportMeasure`. -/
inductive Phase where
  | setup_cuda
  | prepare_env
  | kernel
  | free_memory
  deriving DecidableEq, Repr

/-- The three statement-level insertion points of the harness. -/
inductive SlotName where
  | prepare_environment
  | launch_all_kernels
  | copy_back_to_host
  deriving DecidableEq, Repr

/-- The fields of `result_t` that the harness and the spec speak of.  The type
declaration itself is not in the sources; `last_error` and
`device_allocations` are the two members the harness names, `result` is the
host output buffer of spec section 3 (d), `none` when it points to no buffer.
`device_allocations` holds the contents of the `vector<void*>` the member
points to. -/
structure result_t where
  last_error : Int
  device_allocations : List DevPtr
  result : Option (List Int)
  deriving DecidableEq, Repr

/-- What the harness does, one entry per statement, in program order.
Modelled from the spec: `timeStartMeasure` and `timeReportMeasure` are missing
from the sources; section 4.1 has each step "independently timed and recorded",
so a use of either is logged as an entry. `cudaFree p` is a `cudaFree` call with
argument `p`: line 21 issues `cudaFree 0`, line 49 one per recorded handle. -/
inductive Ev where
  | newAllocations
  | timeStartMeasure
  | cudaSetDevice (device : Nat)
  | cudaFree (p : DevPtr)
  | timeReportMeasure (ph : Phase)
  | slot (s : SlotName)
  | deleteAllocations
  deriving DecidableEq, Repr

/-- The statuses of the device calls the harness itself makes. The status of a
teardown `cudaFree(*device_ptr)` is there for completeness: line 49 discards
it. -/
structure DeviceCalls where
  cudaSetDevice : cudaError_t
  cudaFreeNull : cudaError_t
  cudaFreePtr : DevPtr → cudaError_t

/-- How the text filled into an insertion point ends: control falls through to
the next harness statement (`completes`), or the text itself executes
`return program_result` (`returns`), as a checked call inside it would. -/
inductive SlotOutcome where
  | completes (r : result_t)
  | returns (r : result_t)
  deriving DecidableEq, Repr

/-- The text of an insertion point, as an operation on the host environment and
the record behind `program_result`. -/
abbrev Slot (Env : Type) := Env → result_t → SlotOutcome

/-- The `return` statement a call of the harness left through. -/
inductive Exit where
  | device_unavailable
  | checked_call
  | in_slot (s : SlotName)
  | completed
  deriving DecidableEq, Repr

/-- One call of the harness: the record handed to the caller, the statements
executed, and the exit taken. -/
structure Run where
  program_result : result_t
  trace : List Ev
  exit : Exit
  deriving DecidableEq, Repr

/-- Modelled from the spec: the `checkErrorReturn` macro is missing from the
sources. Section 7: the harness's "own checked calls instead record the failure
into Result and return early". `some r` is the record returned early, `none`
lets control continue with the record untouched. -/
def checkErrorReturn (program_result : result_t) (status : cudaError_t) : Option result_t :=
  if status ≠ cudaSuccess then
    some (result_t.mk status program_result.device_allocations program_result.result)
  else
    none

/-- Lines 44-50: one `cudaFree` per element of the allocation vector, from
`begin()` to `end()`. -/
def free_loop : List DevPtr → List Ev
  | [] => []
  | device_ptr :: rest => Ev.cudaFree device_ptr :: free_loop rest

/-- Lines 8-9: the record as it stands before device selection. `blk` is the
content of the block `malloc(sizeof(result_t))` hands out, which `malloc` does
not initialise; line 9 overwrites its `device_allocations` member with a new,
empty vector and no other member is written. -/
def fresh_result (blk : result_t) : result_t :=
  result_t.mk blk.last_error [] blk.result

/-- The harness `launch_kernel` of `host_section_entry_point.cpp`, run on the
block `blk` that `malloc` hands out. -/
def launch_kernel {Env : Type} (dev : DeviceCalls)
    (prepare_environment launch_all_kernels copy_back_to_host : Slot Env)
    (host_env : Env) (blk : result_t) : Run :=
  -- lines 8-13
  let r0 : result_t := fresh_result blk
  let t0 : List Ev := [Ev.newAllocations, Ev.timeStartMeasure, Ev.cudaSetDevice 0]
  -- lines 15-19
  if dev.cudaSetDevice ≠ cudaSuccess then
    Run.mk (result_t.mk (-1) r0.device_allocations r0.result) t0 Exit.device_unavailable
  else
    -- line 21
    let t1 := t0 ++ [Ev.cudaFree 0]
    match checkErrorReturn r0 dev.cudaFreeNull with
    | some r => Run.mk r t1 Exit.checked_call
    | none =>
      -- lines 23-28
      let t2 := t1 ++ [Ev.timeReportMeasure Phase.setup_cuda, Ev.timeStartMeasure,
        Ev.slot SlotName.prepare_environment]
      match prepare_environment host_env r0 with
      | SlotOutcome.returns r => Run.mk r t2 (Exit.in_slot SlotName.prepare_environment)
      | SlotOutcome.completes r1 =>
        -- lines 29-34
        let t3 := t2 ++ [Ev.timeReportMeasure Phase.prepare_env, Ev.timeStartMeasure,
          Ev.slot SlotName.launch_all_kernels]
        match launch_all_kernels host_env r1 with
        | SlotOutcome.returns r => Run.mk r t3 (Exit.in_slot SlotName.launch_all_kernels)
        | SlotOutcome.completes r2 =>
          -- lines 35-39
          let t4 := t3 ++ [Ev.timeReportMeasure Phase.kernel,
            Ev.slot SlotName.copy_back_to_host]
          match copy_back_to_host host_env r2 with
          | SlotOutcome.returns r => Run.mk r t4 (Exit.in_slot SlotName.copy_back_to_host)
          | SlotOutcome.completes r3 =>
            -- lines 42-56
            Run.mk r3
              (t4 ++ [Ev.timeStartMeasure] ++ free_loop r3.device_allocations ++
                [Ev.deleteAllocations, Ev.timeReportMeasure Phase.free_memory])
              Exit.completed

/-- The handles passed to `cudaFree`, in the order of the calls. -/
def frees : List Ev → List DevPtr
  | [] => []
  | Ev.cudaFree p :: rest => p :: frees rest
  | _ :: rest => frees rest

/-- The phases reported through `timeReportMeasure`, in the order of the
reports. -/
def timings : List Ev → List Phase
  | [] => []
  | Ev.timeReportMeasure ph :: rest => ph :: timings rest
  | _ :: rest => timings rest

/-- The insertion points whose text was run, in order. -/
def slots_run : List Ev → List SlotName
  | [] => []
  | Ev.slot s :: rest => s :: slots_run rest
  | _ :: rest => slots_run rest

/-- The statements after the copy-back insertion point: the teardown step. -/
def teardown : List Ev → List Ev
  | [] => []
  | Ev.slot SlotName.copy_back_to_host :: rest => rest
  | _ :: rest => teardown rest

/-- Whether the allocation vector created at line 9 has been deleted. -/
def allocations_destroyed (tr : List Ev) : Bool :=
  decide (Ev.deleteAllocations ∈ tr)

/-! ### Concrete inputs -/

/-- The environment of the spec's scenario, `{value: 42}`. -/
structure environment_t where
  value : Int
  deriving DecidableEq, Repr

/-- A device on which every call of the harness succeeds. -/
def device_ok : DeviceCalls := DeviceCalls.mk 0 0 (fun _ => 0)

/-- A device on which `cudaSetDevice(0)` fails (status 100, no device). -/
def device_missing : DeviceCalls := DeviceCalls.mk 100 0 (fun _ => 0)

/-- A device on which `cudaSetDevice(0)` succeeds and `cudaFree(0)` fails
(status 3, initialisation error). -/
def device_reset_fails : DeviceCalls := DeviceCalls.mk 0 3 (fun _ => 0)

/-- Environment preparation that records two device allocations. -/
def prepare_two : Slot environment_t :=
  fun _ r => SlotOutcome.completes (result_t.mk r.last_error (r.device_allocations ++ [4096, 8192]) r.result)

/-- A kernel sequence that records one more allocation for its output. -/
def kernel_double : Slot environment_t :=
  fun _ r => SlotOutcome.completes (result_t.mk r.last_error (r.device_allocations ++ [12288]) r.result)

/-- Copy-back of the single element `value * 2` into the host output buffer. -/
def copy_double : Slot environment_t :=
  fun env r => SlotOutcome.completes (result_t.mk r.last_error r.device_allocations (some [env.value * 2]))

/-- A kernel sequence that stores error code 77 in the record and goes on. -/
def kernel_signals_error : Slot environment_t :=
  fun _ r => SlotOutcome.completes (result_t.mk 77 (r.device_allocations ++ [12288]) r.result)

/-- Copy-back text in which a checked call fails with status 11: it stores the
status in the record and returns from the function. -/
def copy_back_returns : Slot environment_t :=
  fun _ r => SlotOutcome.returns (result_t.mk 11 r.device_allocations r.result)

/-- A freshly allocated record whose bytes happen to be zero. -/
def blk_zero : result_t := result_t.mk 0 [] none

/-- Whether a call returned before it reached the teardown step. -/
def returns_before_teardown (run : Run) : Prop :=
  run.exit ≠ Exit.completed

instance (run : Run) : Decidable (returns_before_teardown run) := by
  unfold returns_before_teardown
  exact inferInstance

/-- A slot whose text always hands control back to the harness. -/
def Slot.falls_through {Env : Type} (s : Slot Env) (host_env : Env) : Prop :=
  ∀ r, ∃ r1, s host_env r = SlotOutcome.completes r1

end HostSectionEntryPoint

namespace KernelLauncher

/-- The pointer variables of the unit. -/
inductive Var where
  | host_env
  | device_env
  | host_result
  | device_result
  deriving DecidableEq, Repr

/-- What the generator substitutes into the size expressions of the unit: the
result element type (a C type, of which the expressions use the size) and the
result element count. `environment_t` is declared outside the template; its
size is taken along. -/
structure Instantiation where
  sizeof_environment_t : Nat
  sizeof_result_type : Nat
  result_size : Nat
  deriving DecidableEq, Repr

/-- A byte-count argument as the template writes it.
`sizeof_result_type` is `sizeof(/*{result_type}*/)`, `result_size` is
`/*{result_size}*/`, and `result_type` is `/*{result_type}*/` standing where an
operand is expected. -/
inductive SizeExpr where
  | sizeof_environment_t
  | sizeof_result_type
  | result_size
  | result_type
  | mul (a b : SizeExpr)
  deriving DecidableEq, Repr

/-- The value of a byte count once the insertion points are filled; `size_t`
arithmetic wraps at 64 bits. A type name is not an operand, so an expression
that multiplies by `/*{result_type}*/` has no value. -/
def SizeExpr.eval (σ : Instantiation) : SizeExpr → Option Nat
  | SizeExpr.sizeof_environment_t => some σ.sizeof_environment_t
  | SizeExpr.sizeof_result_type => some σ.sizeof_result_type
  | SizeExpr.result_size => some σ.result_size
  | SizeExpr.result_type => none
  | SizeExpr.mul a b =>
    match SizeExpr.eval σ a, SizeExpr.eval σ b with
    | some x, some y => some ((x * y) % 2 ^ 64)
    | _, _ => none

/-- Lines 8 and 10: `sizeof(/*{result_type}*/) * /*{result_size}*/`, the size of
the host and of the device output buffer. -/
def result_bytes : SizeExpr :=
  SizeExpr.mul SizeExpr.sizeof_result_type SizeExpr.result_size

/-- Line 19: `sizeof(/*{result_type}*/) * /*{result_type}*/`, the byte count of
the device-to-host copy. -/
def copy_back_bytes : SizeExpr :=
  SizeExpr.mul SizeExpr.sizeof_result_type SizeExpr.result_type

/-- The direction argument of `cudaMemcpy`. -/
inductive CopyKind where
  | cudaMemcpyHostToDevice
  | cudaMemcpyDeviceToHost
  deriving DecidableEq, Repr

/-- The operations of the unit, one per statement, in program order. The launch
geometry of `kernel<<<dim_grid, dim_block>>>` stays symbolic. -/
inductive Op where
  | printf
  | cudaMalloc (v : Var) (bytes : SizeExpr)
  | cudaMemcpy (dst src : Var) (bytes : SizeExpr) (kind : CopyKind)
  | malloc (v : Var) (bytes : SizeExpr)
  | kernel (env out : Var)
  | cudaThreadSynchronize
  | cudaFree (v : Var)
  deriving DecidableEq, Repr

/-- The six calls wrapped in `checkCudaErrors`, lines 5, 6, 10, 17, 19, 20. -/
inductive CheckedCall where
  | malloc_env
  | copy_env
  | malloc_result
  | synchronize
  | copy_result
  | free_env
  deriving DecidableEq, Repr

/-- The operation a checked call performs. -/
def CheckedCall.op : CheckedCall → Op
  | CheckedCall.malloc_env => Op.cudaMalloc Var.device_env SizeExpr.sizeof_environment_t
  | CheckedCall.copy_env =>
    Op.cudaMemcpy Var.device_env Var.host_env SizeExpr.sizeof_environment_t
      CopyKind.cudaMemcpyHostToDevice
  | CheckedCall.malloc_result => Op.cudaMalloc Var.device_result result_bytes
  | CheckedCall.synchronize => Op.cudaThreadSynchronize
  | CheckedCall.copy_result =>
    Op.cudaMemcpy Var.host_result Var.device_result copy_back_bytes
      CopyKind.cudaMemcpyDeviceToHost
  | CheckedCall.free_env => Op.cudaFree Var.device_env

/-- The position of a checked call in program order. -/
def CheckedCall.order : CheckedCall → Nat
  | CheckedCall.malloc_env => 0
  | CheckedCall.copy_env => 1
  | CheckedCall.malloc_result => 2
  | CheckedCall.synchronize => 3
  | CheckedCall.copy_result => 4
  | CheckedCall.free_env => 5

/-- The status the device gives each checked call. -/
abbrev Statuses := CheckedCall → cudaError_t

/-- Modelled from the spec: the `checkCudaErrors` macro is missing from the
sources. Section 4.2: a failure of a checked call "is a fatal condition", "the
reference behavior aborts the process rather than returning a structured
error". `true` when the process goes on. -/
def checkCudaErrors (status : cudaError_t) : Bool :=
  decide (status = cudaSuccess)

/-- How a call of the unit ends: with the host buffer it returns, or with the
process terminated. -/
inductive Outcome where
  | returned (buffer : Var)
  | aborted
  deriving DecidableEq, Repr

/-- One call of the unit. -/
structure UnitRun where
  trace : List Op
  outcome : Outcome
  deriving DecidableEq, Repr

/-- The unit `launch_kernel` of `kernel_launcher.cpp`. -/
def launch_kernel (st : Statuses) : UnitRun :=
  -- lines 3-5
  let t0 : List Op := [Op.printf, Op.cudaMalloc Var.device_env SizeExpr.sizeof_environment_t]
  if checkCudaErrors (st CheckedCall.malloc_env) = false then UnitRun.mk t0 Outcome.aborted
  else
    -- line 6
    let t1 := t0 ++ [Op.cudaMemcpy Var.device_env Var.host_env SizeExpr.sizeof_environment_t
      CopyKind.cudaMemcpyHostToDevice]
    if checkCudaErrors (st CheckedCall.copy_env) = false then UnitRun.mk t1 Outcome.aborted
    else
      -- lines 8-10
      let t2 := t1 ++ [Op.malloc Var.host_result result_bytes,
        Op.cudaMalloc Var.device_result result_bytes]
      if checkCudaErrors (st CheckedCall.malloc_result) = false then
        UnitRun.mk t2 Outcome.aborted
      else
        -- lines 15-17
        let t3 := t2 ++ [Op.kernel Var.device_env Var.device_result, Op.cudaThreadSynchronize]
        if checkCudaErrors (st CheckedCall.synchronize) = false then
          UnitRun.mk t3 Outcome.aborted
        else
          -- line 19
          let t4 := t3 ++ [Op.cudaMemcpy Var.host_result Var.device_result copy_back_bytes
            CopyKind.cudaMemcpyDeviceToHost]
          if checkCudaErrors (st CheckedCall.copy_result) = false then
            UnitRun.mk t4 Outcome.aborted
          else
            -- lines 20-22
            let t5 := t4 ++ [Op.cudaFree Var.device_env]
            if checkCudaErrors (st CheckedCall.free_env) = false then
              UnitRun.mk t5 Outcome.aborted
            else
              UnitRun.mk t5 (Outcome.returned Var.host_result)

/-- The buffers obtained through `cudaMalloc`, in the order of the calls. -/
def device_allocs : List Op → List Var
  | [] => []
  | Op.cudaMalloc v _ :: rest => v :: device_allocs rest
  | _ :: rest => device_allocs rest

/-- The buffers passed to `cudaFree`, in the order of the calls. -/
def device_frees : List Op → List Var
  | [] => []
  | Op.cudaFree v :: rest => v :: device_frees rest
  | _ :: rest => device_frees rest

/-- The device buffers allocated and not freed by the end of the trace. -/
def still_allocated (tr : List Op) : List Var :=
  (device_allocs tr).filter (fun v => decide (v ∉ device_frees tr))

/-- The byte counts of the device-to-host copies of a trace. -/
def copy_back_sizes : List Op → List SizeExpr
  | [] => []
  | Op.cudaMemcpy _ _ bytes CopyKind.cudaMemcpyDeviceToHost :: rest =>
    bytes :: copy_back_sizes rest
  | _ :: rest => copy_back_sizes rest

/-- The byte counts of the `cudaMalloc` calls for a given buffer. -/
def device_alloc_sizes (v : Var) : List Op → List SizeExpr
  | [] => []
  | Op.cudaMalloc w bytes :: rest =>
    if w = v then bytes :: device_alloc_sizes v rest else device_alloc_sizes v rest
  | _ :: rest => device_alloc_sizes v rest

/-- The byte counts of the host `malloc` calls for a given buffer. -/
def host_alloc_sizes (v : Var) : List Op → List SizeExpr
  | [] => []
  | Op.malloc w bytes :: rest =>
    if w = v then bytes :: host_alloc_sizes v rest else host_alloc_sizes v rest
  | _ :: rest => host_alloc_sizes v rest

/-! ### Concrete inputs -/

/-- Every checked call succeeds. -/
def all_succeed : Statuses := fun _ => cudaSuccess

/-- The post-launch synchronisation fails with status 4 (launch failure). -/
def sync_fails : Statuses :=
  fun c => if c = CheckedCall.synchronize then 4 else cudaSuccess

/-- Ten `int` results (four bytes each) over an environment of eight bytes. -/
def int_times_ten : Instantiation := Instantiation.mk 8 4 10

end KernelLauncher

namespace HostSectionEntryPoint

/-! ### Lemmas on traces -/

theorem frees_append (a b : List Ev) : frees (a ++ b) = frees a ++ frees b := by
  induction a with
  | nil => rfl
  | cons e rest ih => cases e <;> simp [frees, ih]

theorem frees_free_loop (l : List DevPtr) : frees (free_loop l) = l := by
  induction l with
  | nil => rfl
  | cons p rest ih => simp [free_loop, frees, ih]

theorem timings_append (a b : List Ev) : timings (a ++ b) = timings a ++ timings b := by
  induction a with
  | nil => rfl
  | cons e rest ih => cases e <;> simp [timings, ih]

theorem timings_free_loop (l : List DevPtr) : timings (free_loop l) = [] := by
  induction l with
  | nil => rfl
  | cons p rest ih => simp [free_loop, timings, ih]

theorem mem_free_loop (l : List DevPtr) (p : DevPtr) : Ev.cudaFree p ∈ free_loop l ↔ p ∈ l := by
  induction l with
  | nil => simp [free_loop]
  | cons q rest ih =>
    simp only [free_loop, List.mem_cons, ih, Ev.cudaFree.injEq]

/-- The trace of a call that gets through device setup and all three slots. -/
theorem launch_kernel_completed {Env : Type} (dev : DeviceCalls) (s1 s2 s3 : Slot Env)
    (host_env : Env) (blk r1 r2 r3 : result_t)
    (hdev : dev.cudaSetDevice = cudaSuccess) (hreset : dev.cudaFreeNull = cudaSuccess)
    (h1 : s1 host_env (result_t.mk blk.last_error [] blk.result) = SlotOutcome.completes r1)
    (h2 : s2 host_env r1 = SlotOutcome.completes r2)
    (h3 : s3 host_env r2 = SlotOutcome.completes r3) :
    launch_kernel dev s1 s2 s3 host_env blk =
      Run.mk r3
        ([Ev.newAllocations, Ev.timeStartMeasure, Ev.cudaSetDevice 0, Ev.cudaFree 0,
          Ev.timeReportMeasure Phase.setup_cuda, Ev.timeStartMeasure,
          Ev.slot SlotName.prepare_environment,
          Ev.timeReportMeasure Phase.prepare_env, Ev.timeStartMeasure,
          Ev.slot SlotName.launch_all_kernels,
          Ev.timeReportMeasure Phase.kernel,
          Ev.slot SlotName.copy_back_to_host,
          Ev.timeStartMeasure] ++ free_loop r3.device_allocations ++
          [Ev.deleteAllocations, Ev.timeReportMeasure Phase.free_memory])
        Exit.completed := by
  simp [launch_kernel, fresh_result, checkErrorReturn, hdev, hreset, h1, h2, h3]

theorem teardown_completed (a : List Ev) :
    teardown ([Ev.newAllocations, Ev.timeStartMeasure, Ev.cudaSetDevice 0, Ev.cudaFree 0,
          Ev.timeReportMeasure Phase.setup_cuda, Ev.timeStartMeasure,
          Ev.slot SlotName.prepare_environment,
          Ev.timeReportMeasure Phase.prepare_env, Ev.timeStartMeasure,
          Ev.slot SlotName.launch_all_kernels,
          Ev.timeReportMeasure Phase.kernel,
          Ev.slot SlotName.copy_back_to_host,
          Ev.timeStartMeasure] ++ a) = Ev.timeStartMeasure :: a := by
  simp [teardown]

/-! ### The session harness -/

/-- Claim C1: when `cudaSetDevice(0)` fails, whatever the environment and the
slots, the returned record has `last_error = -1` and an empty allocation list,
the call left through the device-unavailable return, no slot was run, no
`cudaFree` was issued, no timing was reported, the output buffer member is what
the fresh block held (it was never written), and the run is the same for any
other slots and environment. -/
theorem launch_kernel_device_selection_failure {Env : Type} (dev : DeviceCalls)
    (s1 s2 s3 : Slot Env) (host_env : Env) (blk : result_t)
    (h : dev.cudaSetDevice ≠ cudaSuccess) :
    (launch_kernel dev s1 s2 s3 host_env blk).program_result.last_error = -1 ∧
    (launch_kernel dev s1 s2 s3 host_env blk).program_result.device_allocations = [] ∧
    (launch_kernel dev s1 s2 s3 host_env blk).exit = Exit.device_unavailable ∧
    slots_run (launch_kernel dev s1 s2 s3 host_env blk).trace = [] ∧
    frees (launch_kernel dev s1 s2 s3 host_env blk).trace = [] ∧
    timings (launch_kernel dev s1 s2 s3 host_env blk).trace = [] ∧
    (launch_kernel dev s1 s2 s3 host_env blk).program_result.result = blk.result ∧
    ∀ (t1 t2 t3 : Slot Env) (other_env : Env),
      launch_kernel dev t1 t2 t3 other_env blk = launch_kernel dev s1 s2 s3 host_env blk := by
  simp [launch_kernel, fresh_result, h, slots_run, frees, timings]

/-- Witness of C1 on a device without a CUDA-capable GPU. -/
theorem launch_kernel_device_selection_failure_witness :
    device_missing.cudaSetDevice ≠ cudaSuccess ∧
    (launch_kernel device_missing prepare_two kernel_double copy_double
      (environment_t.mk 42) blk_zero).program_result.last_error = -1 ∧
    frees (launch_kernel device_missing prepare_two kernel_double copy_double
      (environment_t.mk 42) blk_zero).trace = [] :=
  have h : device_missing.cudaSetDevice ≠ cudaSuccess := by decide
  have w := launch_kernel_device_selection_failure device_missing prepare_two kernel_double
    copy_double (environment_t.mk 42) blk_zero h
  ⟨h, w.1, w.2.2.2.2.1⟩

/-- Claim C2: when device selection and reset succeed and the three slots run
to completion, the `cudaFree` calls of the teardown step are exactly the
allocation list as copy-back left it, in recorded order; so every handle is
freed as many times as it is recorded, no more and no less. -/
theorem launch_kernel_teardown_frees_allocation_list {Env : Type} (dev : DeviceCalls)
    (s1 s2 s3 : Slot Env) (host_env : Env) (blk r1 r2 r3 : result_t)
    (hdev : dev.cudaSetDevice = cudaSuccess) (hreset : dev.cudaFreeNull = cudaSuccess)
    (h1 : s1 host_env (result_t.mk blk.last_error [] blk.result) = SlotOutcome.completes r1)
    (h2 : s2 host_env r1 = SlotOutcome.completes r2)
    (h3 : s3 host_env r2 = SlotOutcome.completes r3) :
    frees (teardown (launch_kernel dev s1 s2 s3 host_env blk).trace) = r3.device_allocations ∧
    ∀ p : DevPtr,
      (frees (teardown (launch_kernel dev s1 s2 s3 host_env blk).trace)).count p =
        r3.device_allocations.count p := by
  have hfree : frees (teardown (launch_kernel dev s1 s2 s3 host_env blk).trace) =
      r3.device_allocations := by
    rw [launch_kernel_completed dev s1 s2 s3 host_env blk r1 r2 r3 hdev hreset h1 h2 h3]
    simp only [List.append_assoc, teardown_completed]
    simp [frees, frees_append, frees_free_loop]
  exact ⟨hfree, fun p => by rw [hfree]⟩

/-- Witness of C2: three recorded handles, freed in recorded order. -/
theorem launch_kernel_teardown_frees_allocation_list_witness :
    frees (teardown (launch_kernel device_ok prepare_two kernel_double copy_double
      (environment_t.mk 42) blk_zero).trace) = [4096, 8192, 12288] :=
  (launch_kernel_teardown_frees_allocation_list device_ok prepare_two kernel_double copy_double
    (environment_t.mk 42) blk_zero
    (result_t.mk 0 [4096, 8192] none) (result_t.mk 0 [4096, 8192, 12288] none)
    (result_t.mk 0 [4096, 8192, 12288] (some [84])) rfl rfl rfl rfl rfl).1

/-- Claim C5 fails as stated: with device selection and reset succeeding, a
copy-back slot whose text returns from the function ends the call before
teardown. The three recorded handles are never passed to `cudaFree`, the
allocation vector is not deleted and no teardown timing is reported. -/
theorem launch_kernel_slot_return_skips_teardown :
    device_ok.cudaSetDevice = cudaSuccess ∧ device_ok.cudaFreeNull = cudaSuccess ∧
    (launch_kernel device_ok prepare_two kernel_double copy_back_returns
      (environment_t.mk 42) blk_zero).exit = Exit.in_slot SlotName.copy_back_to_host ∧
    (launch_kernel device_ok prepare_two kernel_double copy_back_returns
      (environment_t.mk 42) blk_zero).program_result.last_error = 11 ∧
    (launch_kernel device_ok prepare_two kernel_double copy_back_returns
      (environment_t.mk 42) blk_zero).program_result.device_allocations =
        [4096, 8192, 12288] ∧
    frees (teardown (launch_kernel device_ok prepare_two kernel_double copy_back_returns
      (environment_t.mk 42) blk_zero).trace) = [] ∧
    Ev.cudaFree 4096 ∉ (launch_kernel device_ok prepare_two kernel_double copy_back_returns
      (environment_t.mk 42) blk_zero).trace ∧
    allocations_destroyed (launch_kernel device_ok prepare_two kernel_double
      copy_back_returns (environment_t.mk 42) blk_zero).trace = false ∧
    Ev.timeReportMeasure Phase.free_memory ∉ (launch_kernel device_ok prepare_two
      kernel_double copy_back_returns (environment_t.mk 42) blk_zero).trace := by
  decide

/-- Claim C5 as amended: once device selection and reset have succeeded and the
slots hand control back, the teardown step runs whatever error code the slots
stored in the record: every recorded handle is passed to `cudaFree`, the allocation
vector is deleted, the teardown timing is reported, and the call leaves through
the final return with the record as the slots left it. -/
theorem launch_kernel_teardown_runs_after_slot_errors {Env : Type} (dev : DeviceCalls)
    (s1 s2 s3 : Slot Env) (host_env : Env) (blk r1 r2 r3 : result_t)
    (hdev : dev.cudaSetDevice = cudaSuccess) (hreset : dev.cudaFreeNull = cudaSuccess)
    (h1 : s1 host_env (result_t.mk blk.last_error [] blk.result) = SlotOutcome.completes r1)
    (h2 : s2 host_env r1 = SlotOutcome.completes r2)
    (h3 : s3 host_env r2 = SlotOutcome.completes r3) :
    (launch_kernel dev s1 s2 s3 host_env blk).exit = Exit.completed ∧
    (∀ p ∈ r3.device_allocations,
      Ev.cudaFree p ∈ teardown (launch_kernel dev s1 s2 s3 host_env blk).trace) ∧
    Ev.deleteAllocations ∈ teardown (launch_kernel dev s1 s2 s3 host_env blk).trace ∧
    Ev.timeReportMeasure Phase.free_memory ∈
      teardown (launch_kernel dev s1 s2 s3 host_env blk).trace ∧
    (launch_kernel dev s1 s2 s3 host_env blk).program_result = r3 := by
  rw [launch_kernel_completed dev s1 s2 s3 host_env blk r1 r2 r3 hdev hreset h1 h2 h3]
  simp only [List.append_assoc, teardown_completed]
  refine ⟨trivial, ?_, ?_, ?_, trivial⟩
  · intro p hp
    simp [mem_free_loop, hp]
  · simp
  · simp

/-- Witness of C5: the kernel slot stores error code 77 and teardown still
frees the three recorded handles. -/
theorem launch_kernel_teardown_runs_after_slot_errors_witness :
    (launch_kernel device_ok prepare_two kernel_signals_error copy_double
      (environment_t.mk 42) blk_zero).program_result.last_error = 77 ∧
    (launch_kernel device_ok prepare_two kernel_signals_error copy_double
      (environment_t.mk 42) blk_zero).exit = Exit.completed ∧
    Ev.cudaFree 12288 ∈ teardown (launch_kernel device_ok prepare_two kernel_signals_error
      copy_double (environment_t.mk 42) blk_zero).trace :=
  have w := launch_kernel_teardown_runs_after_slot_errors device_ok prepare_two
    kernel_signals_error copy_double (environment_t.mk 42) blk_zero
    (result_t.mk 0 [4096, 8192] none) (result_t.mk 77 [4096, 8192, 12288] none)
    (result_t.mk 77 [4096, 8192, 12288] (some [84])) rfl rfl rfl rfl rfl
  ⟨by rw [w.2.2.2.2], w.1, w.2.1 12288 (by decide)⟩

/-- Claim C6: a call in which device selection and reset succeed and the slots
run to completion reports exactly four timings, one for each of setup,
environment preparation, kernel and teardown, in that order, and no other. -/
theorem launch_kernel_reports_four_timings {Env : Type} (dev : DeviceCalls)
    (s1 s2 s3 : Slot Env) (host_env : Env) (blk r1 r2 r3 : result_t)
    (hdev : dev.cudaSetDevice = cudaSuccess) (hreset : dev.cudaFreeNull = cudaSuccess)
    (h1 : s1 host_env (result_t.mk blk.last_error [] blk.result) = SlotOutcome.completes r1)
    (h2 : s2 host_env r1 = SlotOutcome.completes r2)
    (h3 : s3 host_env r2 = SlotOutcome.completes r3) :
    timings (launch_kernel dev s1 s2 s3 host_env blk).trace =
      [Phase.setup_cuda, Phase.prepare_env, Phase.kernel, Phase.free_memory] := by
  rw [launch_kernel_completed dev s1 s2 s3 host_env blk r1 r2 r3 hdev hreset h1 h2 h3]
  simp [timings, timings_append, timings_free_loop]

/-- Witness of C6 on the scenario of the spec, environment `{value: 42}`. -/
theorem launch_kernel_reports_four_timings_witness :
    timings (launch_kernel device_ok prepare_two kernel_double copy_double
      (environment_t.mk 42) blk_zero).trace =
      [Phase.setup_cuda, Phase.prepare_env, Phase.kernel, Phase.free_memory] :=
  launch_kernel_reports_four_timings device_ok prepare_two kernel_double copy_double
    (environment_t.mk 42) blk_zero
    (result_t.mk 0 [4096, 8192] none) (result_t.mk 0 [4096, 8192, 12288] none)
    (result_t.mk 0 [4096, 8192, 12288] (some [84])) rfl rfl rfl rfl rfl

/-- Claim C7, the code at the failing input: on the device-selection failure
return the allocation vector created at line 9 has not been deleted, and
neither has it on the return of the checked `cudaFree(0)`; only the final
return comes after `delete`. -/
theorem launch_kernel_early_returns_keep_allocation_vector :
    (launch_kernel device_missing prepare_two kernel_double copy_double
      (environment_t.mk 42) blk_zero).exit = Exit.device_unavailable ∧
    allocations_destroyed (launch_kernel device_missing prepare_two kernel_double copy_double
      (environment_t.mk 42) blk_zero).trace = false ∧
    (launch_kernel device_reset_fails prepare_two kernel_double copy_double
      (environment_t.mk 42) blk_zero).exit = Exit.checked_call ∧
    allocations_destroyed (launch_kernel device_reset_fails prepare_two kernel_double
      copy_double (environment_t.mk 42) blk_zero).trace = false ∧
    allocations_destroyed (launch_kernel device_ok prepare_two kernel_double
      copy_double (environment_t.mk 42) blk_zero).trace = true := by
  decide

/-- Claim C9 fails as stated: with `cudaSetDevice(0)` succeeding and the checked
`cudaFree(0)` failing, the harness returns before teardown, so an early return
is not equivalent to a device-selection failure. -/
theorem launch_kernel_early_exit_not_only_on_selection_failure :
    ¬ (returns_before_teardown (launch_kernel device_reset_fails prepare_two kernel_double
        copy_double (environment_t.mk 42) blk_zero) ↔
      device_reset_fails.cudaSetDevice ≠ cudaSuccess) := by
  decide

/-- Claim C9 as amended: with slots that hand control back, the harness
returns before teardown exactly when `cudaSetDevice(0)` failed or the checked
`cudaFree(0)` failed; the statuses of the teardown frees play no part. -/
theorem launch_kernel_early_exit_iff {Env : Type} (dev : DeviceCalls)
    (s1 s2 s3 : Slot Env) (host_env : Env) (blk : result_t)
    (h1 : Slot.falls_through s1 host_env) (h2 : Slot.falls_through s2 host_env)
    (h3 : Slot.falls_through s3 host_env) :
    returns_before_teardown (launch_kernel dev s1 s2 s3 host_env blk) ↔
      (dev.cudaSetDevice ≠ cudaSuccess ∨ dev.cudaFreeNull ≠ cudaSuccess) := by
  obtain ⟨r1, e1⟩ := h1 (result_t.mk blk.last_error [] blk.result)
  obtain ⟨r2, e2⟩ := h2 r1
  obtain ⟨r3, e3⟩ := h3 r2
  by_cases hdev : dev.cudaSetDevice = cudaSuccess
  · by_cases hreset : dev.cudaFreeNull = cudaSuccess
    · rw [launch_kernel_completed dev s1 s2 s3 host_env blk r1 r2 r3 hdev hreset e1 e2 e3]
      simp [returns_before_teardown, hdev, hreset]
    · simp [returns_before_teardown, launch_kernel, fresh_result, checkErrorReturn, hdev,
        hreset]
  · simp [returns_before_teardown, launch_kernel, fresh_result, hdev]

/-- Witness of the amended C9 on a device whose reset fails. -/
theorem launch_kernel_early_exit_iff_witness :
    returns_before_teardown (launch_kernel device_reset_fails prepare_two kernel_double
        copy_double (environment_t.mk 42) blk_zero) ↔
      (device_reset_fails.cudaSetDevice ≠ cudaSuccess ∨
        device_reset_fails.cudaFreeNull ≠ cudaSuccess) :=
  launch_kernel_early_exit_iff device_reset_fails prepare_two kernel_double copy_double
    (environment_t.mk 42) blk_zero (fun _ => ⟨_, rfl⟩) (fun _ => ⟨_, rfl⟩) (fun _ => ⟨_, rfl⟩)

end HostSectionEntryPoint

namespace KernelLauncher

/-! ### The kernel invocation unit -/

/-- The trace and outcome of a call in which every checked call succeeds. -/
theorem launch_kernel_all_succeed (st : Statuses) (h : ∀ c, st c = cudaSuccess) :
    launch_kernel st =
      UnitRun.mk
        [Op.printf,
          Op.cudaMalloc Var.device_env SizeExpr.sizeof_environment_t,
          Op.cudaMemcpy Var.device_env Var.host_env SizeExpr.sizeof_environment_t
            CopyKind.cudaMemcpyHostToDevice,
          Op.malloc Var.host_result result_bytes,
          Op.cudaMalloc Var.device_result result_bytes,
          Op.kernel Var.device_env Var.device_result,
          Op.cudaThreadSynchronize,
          Op.cudaMemcpy Var.host_result Var.device_result copy_back_bytes
            CopyKind.cudaMemcpyDeviceToHost,
          Op.cudaFree Var.device_env]
        (Outcome.returned Var.host_result) := by
  simp [launch_kernel, checkCudaErrors, h]

/-- Claim C4, the code at the failing input: in a successful call the host and
the device output buffer are both allocated with
`sizeof(result_type) * result_size` bytes, 40 for ten `int`s, while the
device-to-host copy is issued with `sizeof(result_type) * result_type`, an
expression that does not mention the element count and has no value. -/
theorem launch_kernel_copy_back_size_differs :
    host_alloc_sizes Var.host_result (launch_kernel all_succeed).trace = [result_bytes] ∧
    device_alloc_sizes Var.device_result (launch_kernel all_succeed).trace = [result_bytes] ∧
    copy_back_sizes (launch_kernel all_succeed).trace = [copy_back_bytes] ∧
    SizeExpr.eval int_times_ten result_bytes = some 40 ∧
    SizeExpr.eval int_times_ten copy_back_bytes = none ∧
    copy_back_bytes ≠ result_bytes := by
  decide

/-- Claim C8: if any of the six checked calls fails, the unit ends in process
termination and returns no host buffer; the last operation performed is the
first checked call that failed, the operations performed are an initial segment
of those of a successful call, and no later checked call is performed. -/
theorem launch_kernel_checked_failure_is_fatal (st : Statuses)
    (h : ∃ c, st c ≠ cudaSuccess) :
    (launch_kernel st).outcome = Outcome.aborted ∧
    ∃ c : CheckedCall, st c ≠ cudaSuccess ∧
      (∀ d : CheckedCall, d.order < c.order → st d = cudaSuccess) ∧
      (launch_kernel st).trace.getLast? = some c.op ∧
      (launch_kernel st).trace <+: (launch_kernel all_succeed).trace ∧
      ∀ d : CheckedCall, c.order < d.order → d.op ∉ (launch_kernel st).trace := by
  have hall := launch_kernel_all_succeed all_succeed (fun _ => rfl)
  by_cases h0 : st CheckedCall.malloc_env = cudaSuccess
  · by_cases h1 : st CheckedCall.copy_env = cudaSuccess
    · by_cases h2 : st CheckedCall.malloc_result = cudaSuccess
      · by_cases h3 : st CheckedCall.synchronize = cudaSuccess
        · by_cases h4 : st CheckedCall.copy_result = cudaSuccess
          · by_cases h5 : st CheckedCall.free_env = cudaSuccess
            · exfalso
              obtain ⟨c, hc⟩ := h
              cases c <;> exact hc (by assumption)
            · have hrun : launch_kernel st = UnitRun.mk
                  [Op.printf,
                    Op.cudaMalloc Var.device_env SizeExpr.sizeof_environment_t,
                    Op.cudaMemcpy Var.device_env Var.host_env SizeExpr.sizeof_environment_t
                      CopyKind.cudaMemcpyHostToDevice,
                    Op.malloc Var.host_result result_bytes,
                    Op.cudaMalloc Var.device_result result_bytes,
                    Op.kernel Var.device_env Var.device_result,
                    Op.cudaThreadSynchronize,
                    Op.cudaMemcpy Var.host_result Var.device_result copy_back_bytes
                      CopyKind.cudaMemcpyDeviceToHost,
                    Op.cudaFree Var.device_env] Outcome.aborted := by
                simp [launch_kernel, checkCudaErrors, h0, h1, h2, h3, h4, h5]
              rw [hrun, hall]
              refine ⟨rfl, CheckedCall.free_env, h5, ?_, by decide, by decide, ?_⟩
              · intro d hd
                cases d <;> first | assumption | (exact absurd hd (by decide))
              · intro d hd
                cases d <;> exact absurd hd (by decide)
          · have hrun : launch_kernel st = UnitRun.mk
                [Op.printf,
                  Op.cudaMalloc Var.device_env SizeExpr.sizeof_environment_t,
                  Op.cudaMemcpy Var.device_env Var.host_env SizeExpr.sizeof_environment_t
                    CopyKind.cudaMemcpyHostToDevice,
                  Op.malloc Var.host_result result_bytes,
                  Op.cudaMalloc Var.device_result result_bytes,
                  Op.kernel Var.device_env Var.device_result,
                  Op.cudaThreadSynchronize,
                  Op.cudaMemcpy Var.host_result Var.device_result copy_back_bytes
                    CopyKind.cudaMemcpyDeviceToHost] Outcome.aborted := by
              simp [launch_kernel, checkCudaErrors, h0, h1, h2, h3, h4]
            rw [hrun, hall]
            refine ⟨rfl, CheckedCall.copy_result, h4, ?_, by decide, by decide, ?_⟩
            · intro d hd
              cases d <;> first | assumption | (exact absurd hd (by decide))
            · intro d hd
              cases d <;> first | (exact absurd hd (by decide)) | decide
        · have hrun : launch_kernel st = UnitRun.mk
              [Op.printf,
                Op.cudaMalloc Var.device_env SizeExpr.sizeof_environment_t,
                Op.cudaMemcpy Var.device_env Var.host_env SizeExpr.sizeof_environment_t
                  CopyKind.cudaMemcpyHostToDevice,
                Op.malloc Var.host_result result_bytes,
                Op.cudaMalloc Var.device_result result_bytes,
                Op.kernel Var.device_env Var.device_result,
                Op.cudaThreadSynchronize] Outcome.aborted := by
            simp [launch_kernel, checkCudaErrors, h0, h1, h2, h3]
          rw [hrun, hall]
          refine ⟨rfl, CheckedCall.synchronize, h3, ?_, by decide, by decide, ?_⟩
          · intro d hd
            cases d <;> first | assumption | (exact absurd hd (by decide))
          · intro d hd
            cases d <;> first | (exact absurd hd (by decide)) | decide
      · have hrun : launch_kernel st = UnitRun.mk
            [Op.printf,
              Op.cudaMalloc Var.device_env SizeExpr.sizeof_environment_t,
              Op.cudaMemcpy Var.device_env Var.host_env SizeExpr.sizeof_environment_t
                CopyKind.cudaMemcpyHostToDevice,
              Op.malloc Var.host_result result_bytes,
              Op.cudaMalloc Var.device_result result_bytes] Outcome.aborted := by
          simp [launch_kernel, checkCudaErrors, h0, h1, h2]
        rw [hrun, hall]
        refine ⟨rfl, CheckedCall.malloc_result, h2, ?_, by decide, by decide, ?_⟩
        · intro d hd
          cases d <;> first | assumption | (exact absurd hd (by decide))
        · intro d hd
          cases d <;> first | (exact absurd hd (by decide)) | decide
    · have hrun : launch_kernel st = UnitRun.mk
          [Op.printf,
            Op.cudaMalloc Var.device_env SizeExpr.sizeof_environment_t,
            Op.cudaMemcpy Var.device_env Var.host_env SizeExpr.sizeof_environment_t
              CopyKind.cudaMemcpyHostToDevice] Outcome.aborted := by
        simp [launch_kernel, checkCudaErrors, h0, h1]
      rw [hrun, hall]
      refine ⟨rfl, CheckedCall.copy_env, h1, ?_, by decide, by decide, ?_⟩
      · intro d hd
        cases d <;> first | assumption | (exact absurd hd (by decide))
      · intro d hd
        cases d <;> first | (exact absurd hd (by decide)) | decide
  · have hrun : launch_kernel st = UnitRun.mk
        [Op.printf,
          Op.cudaMalloc Var.device_env SizeExpr.sizeof_environment_t] Outcome.aborted := by
      simp [launch_kernel, checkCudaErrors, h0]
    rw [hrun, hall]
    refine ⟨rfl, CheckedCall.malloc_env, h0, ?_, by decide, by decide, ?_⟩
    · intro d hd
      cases d <;> first | assumption | (exact absurd hd (by decide))
    · intro d hd
      cases d <;> first | (exact absurd hd (by decide)) | decide

/-- Witness of C8: the synchronisation after the launch fails. -/
theorem launch_kernel_checked_failure_is_fatal_witness :
    sync_fails CheckedCall.synchronize ≠ cudaSuccess ∧
    (launch_kernel sync_fails).outcome = Outcome.aborted :=
  ⟨by decide, (launch_kernel_checked_failure_is_fatal sync_fails
    ⟨CheckedCall.synchronize, by decide⟩).1⟩

/-- Claim C10: in a call in which every checked call succeeds the unit returns
the host buffer, makes exactly two device allocations, `device_env` then
`device_result`, issues exactly one device free, of `device_env`, after the
device-to-host copy, and leaves `device_result` allocated. -/
theorem launch_kernel_allocates_two_frees_one (st : Statuses)
    (h : ∀ c, st c = cudaSuccess) :
    (launch_kernel st).outcome = Outcome.returned Var.host_result ∧
    device_allocs (launch_kernel st).trace = [Var.device_env, Var.device_result] ∧
    device_frees (launch_kernel st).trace = [Var.device_env] ∧
    (∃ before after : List Op,
      (launch_kernel st).trace = before ++ Op.cudaFree Var.device_env :: after ∧
      CheckedCall.copy_result.op ∈ before ∧ device_frees before = []) ∧
    still_allocated (launch_kernel st).trace = [Var.device_result] := by
  rw [launch_kernel_all_succeed st h]
  refine ⟨rfl, by decide, by decide, ?_, by decide⟩
  refine ⟨[Op.printf,
          Op.cudaMalloc Var.device_env SizeExpr.sizeof_environment_t,
          Op.cudaMemcpy Var.device_env Var.host_env SizeExpr.sizeof_environment_t
            CopyKind.cudaMemcpyHostToDevice,
          Op.malloc Var.host_result result_bytes,
          Op.cudaMalloc Var.device_result result_bytes,
          Op.kernel Var.device_env Var.device_result,
          Op.cudaThreadSynchronize,
          Op.cudaMemcpy Var.host_result Var.device_result copy_back_bytes
            CopyKind.cudaMemcpyDeviceToHost], [], rfl, by decide, by decide⟩

/-- Witness of C10 on a device where every call succeeds. -/
theorem launch_kernel_allocates_two_frees_one_witness :
    still_allocated (launch_kernel all_succeed).trace = [Var.device_result] ∧
    device_frees (launch_kernel all_succeed).trace = [Var.device_env] :=
  have w := launch_kernel_allocates_two_frees_one all_succeed (fun _ => rfl)
  ⟨w.2.2.2.2, w.2.2.1⟩

end KernelLauncher

end Ikra
